import Mathlib

/-!
Shallow embedding of the `pigeon` websocket session/hub manager
(package `github.com/crow-hugin/pigeon`): the `envelope` value, the
`Session` state and its operations (`session.go`), the `hub`
coordination loop (hub source file), the `Config` defaults (config
source file), and the Manager-level wrappers (`pigeon.go`).

Go maps are modelled as association lists where the most recent
binding for a key shadows older ones; a Go channel of capacity `cap`
is modelled as a FIFO `List` bounded by `cap`; callback invocations
and transport effects are modelled as explicit event traces returned
alongside the new state.
-/

set_option autoImplicit false

namespace Pigeon

/-- Payload bytes (`[]byte`). -/
abbrev Bytes := List Nat

/-- Session identity: Go identifies sessions by pointer equality; we use an
opaque numeric identifier for the same role. -/
abbrev SessionId := Nat

/-- Websocket frame kinds used by the package
(`websocket.TextMessage` / `BinaryMessage` / `CloseMessage` / `PingMessage`). -/
inductive MsgType where
  | text
  | binary
  | close
  | ping
deriving DecidableEq

/-- Modelled from the spec: the `envelope` struct (its defining file is not
under `src/`, but its fields `t`, `message`, `filter` are used throughout
`pigeon.go` and the hub): frame kind, payload bytes, optional delivery
predicate over sessions. -/
structure Envelope where
  t : MsgType
  message : Bytes
  filter : Option (SessionId → Bool)

/-- The mutable state of one `Session` (`session.go`). `sopen` is the Go
field `open` (a Lean keyword); `output` is the bounded outbound channel,
`cap` its capacity (`Config.MessageBufferSize`). `connCloseCount` and
`outputCloseCount` count how many times `conn.Close()` and
`close(s.output)` have been executed, to express the at-most-once
property of the internal `close`. -/
structure Session where
  sopen : Bool
  output : List Envelope
  cap : Nat
  connCloseCount : Nat
  outputCloseCount : Nat

/-- `Session.closed`: `!s.open` under the read lock. -/
def Session.closed (s : Session) : Bool := !s.sopen

/-- Outcome of one `writeMessage` call, as seen by the error callback. -/
inductive SendEvent where
  | enqueued
  | errClosedSession
  | errBufferFull
deriving DecidableEq

/-- The error-callback messages produced by one `writeMessage` outcome
(the strings are the ones in `session.go`). -/
def SendEvent.callbackErrors : SendEvent → List String
  | .enqueued => []
  | .errClosedSession => ["tried to write to closed a session"]
  | .errBufferFull => ["session message buffer is full"]

/-- `Session.writeMessage` (`session.go:24`): if the session is closed,
report to the error callback and return; otherwise try a non-blocking
send on `s.output` (`select`/`default`): enqueue when there is room,
otherwise report a buffer-full error and drop the message. -/
def Session.writeMessage (s : Session) (m : Envelope) : Session × SendEvent :=
  if s.closed then (s, .errClosedSession)
  else if s.output.length < s.cap then
    ({ s with output := s.output ++ [m] }, .enqueued)
  else (s, .errBufferFull)

/-- `Session.Write` (`session.go:136`): closed-session error, or enqueue a
text envelope via `writeMessage` and return nil. Result: returned error,
new session state, error-callback invocations. -/
def Session.Write (s : Session) (msg : Bytes) :
    Except String Unit × Session × List String :=
  if s.closed then (.error "session is closed", s, [])
  else
    let r := s.writeMessage ⟨.text, msg, none⟩
    (.ok (), r.1, r.2.callbackErrors)

/-- `Session.WriteBinary` (`session.go:145`). -/
def Session.WriteBinary (s : Session) (msg : Bytes) :
    Except String Unit × Session × List String :=
  if s.closed then (.error "session is closed", s, [])
  else
    let r := s.writeMessage ⟨.binary, msg, none⟩
    (.ok (), r.1, r.2.callbackErrors)

/-- `Session.CloseWithMsg` (`session.go:159`): already-closed error, or
enqueue a close envelope via `writeMessage`. -/
def Session.CloseWithMsg (s : Session) (msg : Bytes) :
    Except String Unit × Session × List String :=
  if s.closed then (.error "session is already closed", s, [])
  else
    let r := s.writeMessage ⟨.close, msg, none⟩
    (.ok (), r.1, r.2.callbackErrors)

/-- `Session.Close` (`session.go:154`): `CloseWithMsg` with empty payload. -/
def Session.Close (s : Session) : Except String Unit × Session × List String :=
  s.CloseWithMsg []

/-- The internal `close` (`session.go:54`): when not yet closed, set
`open = false`, close the transport connection and close the outbound
queue (each effect counted once); when already closed, do nothing. -/
def Session.close (s : Session) : Session :=
  if s.closed then s
  else
    { s with
      sopen := false
      connCloseCount := s.connCloseCount + 1
      outputCloseCount := s.outputCloseCount + 1 }

/-- A fresh session as built by `HandleRequestWithKeys` (`pigeon.go:164`):
open, empty outbound queue of the configured capacity. -/
def newSession (cap : Nat) : Session :=
  { sopen := true, output := [], cap := cap, connCloseCount := 0, outputCloseCount := 0 }

/-- Events observable from the outbound pump (`writePump`). -/
inductive PumpEvent where
  | cbError (e : String)
  | cbSentText (msg : Bytes)
  | cbSentBinary (msg : Bytes)

/-- How the outbound pump terminated. -/
inductive PumpExit where
  | queueClosed
  | writeFailed
  | closeWritten
deriving DecidableEq

/-- `Session.writePump` (`session.go:70`), restricted to its
queue-consumption branch (the keepalive-ticker branch touches no queue
state). The transport write `writeRaw` is abstracted by a deterministic
oracle `writeErr` giving, per envelope, the error it would return
(`none` = success). The queue is a FIFO list; reaching its end models
`ok = false` — the queue was closed — a normal termination. On a write
error: report to the error callback and stop. After writing a close
frame: stop. After writing text/binary: invoke the matching
message-sent callback and continue. -/
def writePump (writeErr : Envelope → Option String) :
    List Envelope → List PumpEvent × PumpExit
  | [] => ([], .queueClosed)
  | m :: rest =>
    match writeErr m with
    | some e => ([.cbError e], .writeFailed)
    | none =>
      if m.t = .close then ([], .closeWritten)
      else
        let tail := writePump writeErr rest
        if m.t = .text then (.cbSentText m.message :: tail.1, tail.2)
        else if m.t = .binary then (.cbSentBinary m.message :: tail.1, tail.2)
        else tail

/-- A Go `interface{}` value stored in the attribute map: `none` is `nil`. -/
abbrev GoVal (β : Type) := Option β

/-- `Session.Set` (`session.go:168`): if `Keys` is nil allocate it, then
`Keys[key] = value`. The map is an association list; the new binding
shadows any older one. -/
def setAttr {β : Type} (keys : Option (List (String × GoVal β)))
    (k : String) (v : GoVal β) : Option (List (String × GoVal β)) :=
  some ((k, v) :: keys.getD [])

/-- `Session.Get` (`session.go:178`): `value, exists = s.Keys[key]` when
`Keys` is non-nil; otherwise the zero value (`nil`, `false`). -/
def getAttr {β : Type} (keys : Option (List (String × GoVal β)))
    (k : String) : GoVal β × Bool :=
  match keys with
  | none => (none, false)
  | some l =>
    match l.lookup k with
    | some v => (v, true)
    | none => (none, false)

/-- `Session.MustGet` (`session.go:188`): return the value when the key
exists, else panic — modelled as `Except` with the panic message as the
error. -/
def mustGetAttr {β : Type} (keys : Option (List (String × GoVal β)))
    (k : String) : Except String (GoVal β) :=
  let r := getAttr keys k
  if r.2 then .ok r.1
  else .error ("Key \"" ++ k ++ "\" does not exist")

/-- `time.Duration` is int64 nanoseconds; values here are non-negative. -/
def second : Nat := 1000000000

/-- `Config` (config source file): write deadline, pong deadline, ping
period, max inbound message size, outbound channel capacity. -/
structure Config where
  WriteWait : Nat
  PongWait : Nat
  PingPeriod : Nat
  MaxMessageSize : Nat
  MessageBufferSize : Nat
deriving DecidableEq

/-- `defaultConfig` (config source file): 10s / 60s / `(60s*9)/10` /
512 / 256. -/
def defaultConfig : Config :=
  { WriteWait := 10 * second
    PongWait := 60 * second
    PingPeriod := 60 * second * 9 / 10
    MaxMessageSize := 512
    MessageBufferSize := 256 }

/-- The config selection in `New` (`pigeon.go:81`): a nil `conf` is
replaced by `defaultConfig()`. -/
def newConfig (conf : Option Config) : Config :=
  match conf with
  | none => defaultConfig
  | some c => c

/-- The `hub` state (hub source file): the live-session set (a map keyed
by session identity) and the `open` flag. Channels and the mutex are
implicit: operations are applied one at a time, as serialized by the
`run` loop. -/
structure Hub where
  sessions : List (SessionId × Session)
  hopen : Bool

/-- `hub.closed` (hub source file). -/
def Hub.closed (h : Hub) : Bool := !h.hopen

/-- `hub.len` (hub source file). -/
def Hub.len (h : Hub) : Nat := h.sessions.length

/-- `newHub` (hub source file): empty set, open. -/
def newHub : Hub := { sessions := [], hopen := true }

/-- Whether a broadcast envelope is delivered to session `i`
(`hub.run` broadcast case: `m.filter != nil` then `m.filter(s)`,
else unconditional). -/
def passesFilter (m : Envelope) (i : SessionId) : Bool :=
  match m.filter with
  | none => true
  | some f => f i

/-- The `hub.run` broadcast case (hub source file, lines 43–54): for each
session in the live set, if the filter is absent or accepts it, call
`writeMessage`. Returns the updated session states and the trace of
`writeMessage` calls (session identity plus per-session outcome). The Go
map iteration order is unspecified; the list order is one such order. -/
def hubBroadcast (m : Envelope) :
    List (SessionId × Session) →
    List (SessionId × Session) × List (SessionId × SendEvent)
  | [] => ([], [])
  | (i, s) :: rest =>
    let tail := hubBroadcast m rest
    if passesFilter m i then
      let r := s.writeMessage m
      ((i, r.1) :: tail.1, (i, r.2) :: tail.2)
    else
      ((i, s) :: tail.1, tail.2)

/-- The `hub.run` exit case's sweep (hub source file, lines 55–64): every
session in the live set gets `CloseWithMsg(m.message)` and is removed.
Returns the final state of each swept session together with the
error-callback invocations its `CloseWithMsg` produced. -/
def hubExitSweep (payload : Bytes) :
    List (SessionId × Session) →
    List (SessionId × Session) × List (SessionId × List String)
  | [] => ([], [])
  | (i, s) :: rest =>
    let r := s.CloseWithMsg payload
    let tail := hubExitSweep payload rest
    ((i, r.2.1) :: tail.1, (i, r.2.2) :: tail.2)

/-- The four operations the `hub.run` loop serializes. -/
inductive HubOp where
  | reg (i : SessionId) (s : Session)
  | unreg (i : SessionId)
  | bcast (m : Envelope)
  | exit (payload : Bytes)

/-- One iteration of the `hub.run` select (hub source file): register adds
to the set, unregister removes if present, broadcast fans out, exit
sweeps every session with `CloseWithMsg`, clears the set and sets
`open = false`. -/
def hubApply (h : Hub) : HubOp → Hub
  | .reg i s => { h with sessions := h.sessions ++ [(i, s)] }
  | .unreg i => { h with sessions := h.sessions.filter (fun p => p.1 ≠ i) }
  | .bcast m => { h with sessions := (hubBroadcast m h.sessions).1 }
  | .exit _ => { sessions := [], hopen := false }

/-- The `hub.run` loop (hub source file): operations are consumed in
order while the hub is open; the `exit` case breaks the loop, after
which no further operation is processed (subsequent channel sends would
block forever against the halted loop — their effect on the hub state
is nil). -/
def hubRun (h : Hub) : List HubOp → Hub
  | [] => h
  | op :: ops => if h.hopen then hubRun (hubApply h op) ops else h

/-- The closed-hub gate of `HandleRequestWithKeys` (`pigeon.go:153`)
followed by the register step: a closed hub refuses the connection with
`"pigeon instance is closed"`; otherwise the new session is registered. -/
def handleRequestRegister (h : Hub) (i : SessionId) (cap : Nat) :
    Except String Hub :=
  if h.closed then .error "pigeon instance is closed"
  else .ok (hubApply h (.reg i (newSession cap)))

/-- The unregister step of `HandleRequestWithKeys` (`pigeon.go:182`):
guarded by `!p.hub.closed()` — a no-op on a closed hub. -/
def handleUnregister (h : Hub) (i : SessionId) : Hub :=
  if h.closed then h else hubApply h (.unreg i)

/-- `Pigeon.Broadcast` (`pigeon.go:194`): closed-hub error, else a text
envelope with no filter goes through the hub. -/
def pigeonBroadcast (h : Hub) (msg : Bytes) : Except String Hub :=
  if h.closed then .error "pigeon instance is closed"
  else .ok (hubApply h (.bcast ⟨.text, msg, none⟩))

/-- `Pigeon.BroadcastFilter` (`pigeon.go:206`). -/
def pigeonBroadcastFilter (h : Hub) (msg : Bytes) (fn : SessionId → Bool) :
    Except String Hub :=
  if h.closed then .error "pigeon instance is closed"
  else .ok (hubApply h (.bcast ⟨.text, msg, some fn⟩))

/-- `Pigeon.BroadcastOthers` (`pigeon.go:218`): `BroadcastFilter` with the
pointer-inequality predicate. -/
def pigeonBroadcastOthers (h : Hub) (msg : Bytes) (i : SessionId) :
    Except String Hub :=
  pigeonBroadcastFilter h msg (fun q => q ≠ i)

/-- `Pigeon.BroadcastBinary` (`pigeon.go:235`). -/
def pigeonBroadcastBinary (h : Hub) (msg : Bytes) : Except String Hub :=
  if h.closed then .error "pigeon instance is closed"
  else .ok (hubApply h (.bcast ⟨.binary, msg, none⟩))

/-- `Pigeon.BroadcastBinaryFilter` (`pigeon.go:247`). -/
def pigeonBroadcastBinaryFilter (h : Hub) (msg : Bytes) (fn : SessionId → Bool) :
    Except String Hub :=
  if h.closed then .error "pigeon instance is closed"
  else .ok (hubApply h (.bcast ⟨.binary, msg, some fn⟩))

/-- `Pigeon.BroadcastBinaryOthers` (`pigeon.go:259`). -/
def pigeonBroadcastBinaryOthers (h : Hub) (msg : Bytes) (i : SessionId) :
    Except String Hub :=
  pigeonBroadcastBinaryFilter h msg (fun q => q ≠ i)

/-- `Pigeon.BroadcastMultiple` (`pigeon.go:225`): iterate the given
sessions calling `Write`; return the first `Write` error, leaving the
remaining sessions untouched. Note: unlike every other broadcast
variant, the Go method never consults `p.hub` — the hub argument is
carried (the method has receiver `p`) but unused, exactly as in the
source. Result: session states after the call, and the returned error
if any. -/
def pigeonBroadcastMultiple (h : Hub) (msg : Bytes) :
    List Session → List Session × Option String
  | [] => ([], none)
  | s :: rest =>
    let r := s.Write msg
    match r.1 with
    | .error e => (r.2.1 :: rest, some e)
    | .ok _ =>
      let tail := pigeonBroadcastMultiple h msg rest
      (r.2.1 :: tail.1, tail.2)

/-- `Pigeon.CloseWithMsg` (`pigeon.go:285`): already-closed error, else an
exit envelope carrying `msg` is processed by the hub loop; the swept
sessions' final states are returned for observation. -/
def pigeonCloseWithMsg (h : Hub) (msg : Bytes) :
    Except String (Hub × List (SessionId × Session)) :=
  if h.closed then .error "pigeon instance is already closed"
  else .ok ({ sessions := [], hopen := false }, (hubExitSweep msg h.sessions).1)

/-- `Pigeon.Close` (`pigeon.go:274`): same gate, empty payload. -/
def pigeonClose (h : Hub) : Except String (Hub × List (SessionId × Session)) :=
  if h.closed then .error "pigeon instance is already closed"
  else .ok ({ sessions := [], hopen := false }, (hubExitSweep [] h.sessions).1)

/-! ### Theorems -/

/-- Claim C9: constructing the Manager with a nil config uses the default
configuration: write timeout 10s, pong timeout 60s, ping period 54s
(exactly 9/10 of the pong timeout), max inbound message size 512,
outbound queue capacity 256. -/
theorem new_nil_uses_default_config :
    newConfig none =
      { WriteWait := 10000000000
        PongWait := 60000000000
        PingPeriod := 54000000000
        MaxMessageSize := 512
        MessageBufferSize := 256 }
    ∧ 10 * (newConfig none).PingPeriod = 9 * (newConfig none).PongWait := by
  exact ⟨rfl, rfl⟩

/-- Claim C2: on an open session whose outbound queue is full, a send
(`writeMessage`, `Write`, `WriteBinary`) does not block (the operations
are total functions of the state), drops the message, reports the
buffer-full error to the error callback, leaves the queue unchanged,
and `Write`/`WriteBinary` still return success to the caller. -/
theorem full_queue_send_drops_and_reports (s : Session) (m : Envelope)
    (msg : Bytes) (ho : s.sopen = true) (hf : s.output.length = s.cap) :
    s.writeMessage m = (s, .errBufferFull)
    ∧ s.Write msg = (.ok (), s, ["session message buffer is full"])
    ∧ s.WriteBinary msg = (.ok (), s, ["session message buffer is full"]) := by
  have hcl : s.closed = false := by simp [Session.closed, ho]
  have hlt : ¬ s.output.length < s.cap := by omega
  refine ⟨?_, ?_, ?_⟩ <;>
    simp [Session.Write, Session.WriteBinary, Session.writeMessage, hcl, hlt,
      SendEvent.callbackErrors]

theorem full_queue_send_drops_and_reports_witness :
    Session.Write ⟨true, [⟨.text, [0], none⟩], 1, 0, 0⟩ [1]
      = (.ok (), ⟨true, [⟨.text, [0], none⟩], 1, 0, 0⟩,
         ["session message buffer is full"]) :=
  (full_queue_send_drops_and_reports ⟨true, [⟨.text, [0], none⟩], 1, 0, 0⟩
    ⟨.text, [1], none⟩ [1] rfl rfl).2.1

/-- Claim C5: every public operation on a closed session (`Write`,
`WriteBinary`, `Close`, `CloseWithMsg`) returns a closed-session error,
enqueues nothing and leaves the state untouched; the internal `close`
on a closed session is the identity; `close` always produces a closed
session and is idempotent, so the transport close and queue close
happen at most once and a session never reopens. -/
theorem closed_session_operations (s : Session) (msg : Bytes)
    (hc : s.sopen = false) :
    s.Write msg = (.error "session is closed", s, [])
    ∧ s.WriteBinary msg = (.error "session is closed", s, [])
    ∧ s.Close = (.error "session is already closed", s, [])
    ∧ s.CloseWithMsg msg = (.error "session is already closed", s, [])
    ∧ s.close = s
    ∧ (∀ t : Session, t.close.sopen = false)
    ∧ (∀ t : Session, t.close.close = t.close)
    ∧ (∀ t : Session, t.close.connCloseCount ≤ t.connCloseCount + 1
        ∧ t.close.outputCloseCount ≤ t.outputCloseCount + 1) := by
  have hcl : s.closed = true := by simp [Session.closed, hc]
  refine ⟨?_, ?_, ?_, ?_, ?_, ?_, ?_, ?_⟩
  · simp [Session.Write, hcl]
  · simp [Session.WriteBinary, hcl]
  · simp [Session.Close, Session.CloseWithMsg, hcl]
  · simp [Session.CloseWithMsg, hcl]
  · simp [Session.close, hcl]
  · intro t
    by_cases ht : t.sopen <;> simp [Session.close, Session.closed, ht]
  · intro t
    by_cases ht : t.sopen <;> simp [Session.close, Session.closed, ht]
  · intro t
    by_cases ht : t.sopen <;> simp [Session.close, Session.closed, ht]

theorem closed_session_operations_witness :
    Session.Write ⟨false, [], 4, 1, 1⟩ [2]
      = (.error "session is closed", ⟨false, [], 4, 1, 1⟩, []) :=
  (closed_session_operations ⟨false, [], 4, 1, 1⟩ [2] rfl).1

/-- Claim C6: the outbound pump consumes its queue in FIFO order; a
transport write failure reports the error to the error callback and
terminates the pump; a successfully written close frame terminates the
pump; a successfully written text (resp. binary) frame invokes the text
(resp. binary) message-sent callback with the payload and the pump
continues; an exhausted (closed) queue terminates normally with no
error reported. -/
theorem writePump_per_envelope_behavior (we : Envelope → Option String)
    (m : Envelope) (rest : List Envelope) (e : String) :
    writePump we [] = ([], .queueClosed)
    ∧ (we m = some e →
        writePump we (m :: rest) = ([.cbError e], .writeFailed))
    ∧ (we m = none → m.t = .close →
        writePump we (m :: rest) = ([], .closeWritten))
    ∧ (we m = none → m.t = .text →
        writePump we (m :: rest)
          = (.cbSentText m.message :: (writePump we rest).1,
             (writePump we rest).2))
    ∧ (we m = none → m.t = .binary →
        writePump we (m :: rest)
          = (.cbSentBinary m.message :: (writePump we rest).1,
             (writePump we rest).2)) := by
  refine ⟨rfl, ?_, ?_, ?_, ?_⟩
  · intro h1; simp [writePump, h1]
  · intro h1 h2; simp [writePump, h1, h2]
  · intro h1 h2; simp [writePump, h1, h2]
  · intro h1 h2; simp [writePump, h1, h2]

theorem writePump_per_envelope_behavior_witness :
    writePump (fun _ => none) [⟨.close, [3], none⟩] = ([], .closeWritten) :=
  (writePump_per_envelope_behavior (fun _ => none) ⟨.close, [3], none⟩ [] "e").2.2.1
    rfl rfl

/-- Claim C10: `MustGet` returns the stored value when the key exists in
the attribute map and panics (modelled as the `Except.error` carrying
the panic message) when it does not. -/
theorem mustGet_returns_or_panics {β : Type}
    (keys : Option (List (String × GoVal β))) (k : String) :
    ((getAttr keys k).2 = false →
      mustGetAttr keys k = .error ("Key \"" ++ k ++ "\" does not exist"))
    ∧ (∀ v : GoVal β, getAttr keys k = (v, true) → mustGetAttr keys k = .ok v) := by
  constructor
  · intro h; simp [mustGetAttr, h]
  · intro v h; simp [mustGetAttr, h]

theorem mustGet_returns_or_panics_witness :
    mustGetAttr (β := Nat) none "a"
      = .error ("Key \"" ++ "a" ++ "\" does not exist")
    ∧ mustGetAttr (some [("b", some 5)]) "b" = .ok (some 5) :=
  ⟨(mustGet_returns_or_panics (β := Nat) none "a").1 rfl,
   (mustGet_returns_or_panics (some [("b", some 5)]) "b").2 (some 5) rfl⟩

/-- Claim C7: the Manager's `Close`/`CloseWithMsg` triggers hub shutdown
exactly once: on an open hub the call succeeds and yields the closed
hub; on a hub that has transitioned to Closed, both calls return the
already-closed error and have no further effect. -/
theorem manager_close_exactly_once (h : Hub) (msg : Bytes)
    (ho : h.hopen = true) :
    pigeonCloseWithMsg h msg
      = .ok ({ sessions := [], hopen := false }, (hubExitSweep msg h.sessions).1)
    ∧ pigeonClose h
      = .ok ({ sessions := [], hopen := false }, (hubExitSweep [] h.sessions).1)
    ∧ (∀ h' : Hub, h'.hopen = false →
        pigeonCloseWithMsg h' msg = .error "pigeon instance is already closed"
        ∧ pigeonClose h' = .error "pigeon instance is already closed") := by
  have hcl : h.closed = false := by simp [Hub.closed, ho]
  refine ⟨?_, ?_, ?_⟩
  · simp [pigeonCloseWithMsg, hcl]
  · simp [pigeonClose, hcl]
  · intro h' hc'
    have hcl' : h'.closed = true := by simp [Hub.closed, hc']
    exact ⟨by simp [pigeonCloseWithMsg, hcl'], by simp [pigeonClose, hcl']⟩

theorem manager_close_exactly_once_witness :
    pigeonCloseWithMsg newHub [7] = .ok ({ sessions := [], hopen := false }, [])
    ∧ pigeonCloseWithMsg { sessions := [], hopen := false } [7]
        = .error "pigeon instance is already closed" :=
  ⟨(manager_close_exactly_once newHub [7] rfl).1,
   ((manager_close_exactly_once newHub [7] rfl).2.2
      { sessions := [], hopen := false } rfl).1⟩

/-- Claim C4, counterexample: `BroadcastMultiple` never consults the hub's
state. On a closed hub (here concretely `{sessions := [], hopen := false}`,
which `Hub.closed` reports as closed) the call returns no error at all
instead of failing with a closed-system error. -/
theorem broadcastMultiple_ignores_closed_hub :
    Hub.closed { sessions := [], hopen := false } = true
    ∧ pigeonBroadcastMultiple { sessions := [], hopen := false } [7] []
        = ([], none) :=
  ⟨rfl, rfl⟩

/-- Claim C4 as amended: `Broadcast`, `BroadcastFilter`, `BroadcastOthers`
and the three binary variants fail with the closed-system error when
the hub is closed, delivering nothing; `BroadcastMultiple`, by
contrast, does not consult the hub at all — its result is identical for
any hub state — and only short-circuits on the first per-session
`Write` error (e.g. the closed-session error). -/
theorem broadcast_variants_on_closed_hub (h : Hub) (msg : Bytes)
    (f : SessionId → Bool) (i : SessionId) (hc : h.hopen = false) :
    pigeonBroadcast h msg = .error "pigeon instance is closed"
    ∧ pigeonBroadcastFilter h msg f = .error "pigeon instance is closed"
    ∧ pigeonBroadcastOthers h msg i = .error "pigeon instance is closed"
    ∧ pigeonBroadcastBinary h msg = .error "pigeon instance is closed"
    ∧ pigeonBroadcastBinaryFilter h msg f = .error "pigeon instance is closed"
    ∧ pigeonBroadcastBinaryOthers h msg i = .error "pigeon instance is closed"
    ∧ (∀ ss : List Session,
        pigeonBroadcastMultiple h msg ss
          = pigeonBroadcastMultiple { sessions := [], hopen := true } msg ss)
    ∧ (∀ (s : Session) (rest : List Session), s.sopen = false →
        pigeonBroadcastMultiple h msg (s :: rest)
          = (s :: rest, some "session is closed")) := by
  have hcl : h.closed = true := by simp [Hub.closed, hc]
  refine ⟨?_, ?_, ?_, ?_, ?_, ?_, ?_, ?_⟩
  · simp [pigeonBroadcast, hcl]
  · simp [pigeonBroadcastFilter, hcl]
  · simp [pigeonBroadcastOthers, pigeonBroadcastFilter, hcl]
  · simp [pigeonBroadcastBinary, hcl]
  · simp [pigeonBroadcastBinaryFilter, hcl]
  · simp [pigeonBroadcastBinaryOthers, pigeonBroadcastBinaryFilter, hcl]
  · intro ss
    induction ss with
    | nil => rfl
    | cons s rest ih => simp [pigeonBroadcastMultiple, ih]
  · intro s rest hs
    have hscl : s.closed = true := by simp [Session.closed, hs]
    simp [pigeonBroadcastMultiple, Session.Write, hscl]

theorem broadcast_variants_on_closed_hub_witness :
    pigeonBroadcast { sessions := [], hopen := false } [7]
      = .error "pigeon instance is closed" :=
  (broadcast_variants_on_closed_hub { sessions := [], hopen := false } [7]
    (fun _ => true) 0 rfl).1

/-- Claim C8: setting a key makes a subsequent get of that key return the
value with `exists = true`; a key never set (over any sequence of sets
of other keys, starting from the nil map) yields `exists = false`, so
not-found is distinct from found-with-nil-value; and setting one key
leaves gets of every other key unchanged. -/
theorem attr_set_get_roundtrip {β : Type}
    (keys : Option (List (String × GoVal β))) (k k' : String) (v : GoVal β)
    (hne : k' ≠ k) :
    getAttr (setAttr keys k v) k = (v, true)
    ∧ getAttr (setAttr keys k v) k' = getAttr keys k'
    ∧ (∀ ops : List (String × GoVal β), k ∉ ops.map Prod.fst →
        (getAttr (ops.foldl (fun ks p => setAttr ks p.1 p.2) none) k).2 = false) := by
  have hset_self : ∀ (ks : Option (List (String × GoVal β))) (a : String)
      (b : GoVal β), getAttr (setAttr ks a b) a = (b, true) := by
    intro ks a b
    simp [setAttr, getAttr, List.lookup]
  have hset_other : ∀ (ks : Option (List (String × GoVal β))) (a q : String)
      (b : GoVal β), q ≠ a → getAttr (setAttr ks a b) q = getAttr ks q := by
    intro ks a q b hq
    have hbeq : (q == a) = false := beq_eq_false_iff_ne.mpr hq
    cases ks with
    | none => simp [setAttr, getAttr, List.lookup, hbeq]
    | some l => simp [setAttr, getAttr, List.lookup, hbeq]
  refine ⟨hset_self keys k v, hset_other keys k k' v hne, ?_⟩
  have hfold : ∀ (ops : List (String × GoVal β))
      (ks : Option (List (String × GoVal β))), k ∉ ops.map Prod.fst →
      (getAttr ks k).2 = false →
      (getAttr (ops.foldl (fun a p => setAttr a p.1 p.2) ks) k).2 = false := by
    intro ops
    induction ops with
    | nil => intro ks _ hks; simpa using hks
    | cons p rest ih =>
      intro ks hmem hks
      have hp : k ≠ p.1 := by
        intro hk
        exact hmem (by simp [hk])
      have hrest : k ∉ rest.map Prod.fst := by
        intro hk
        exact hmem (by simp [hk])
      have hstep : (getAttr (setAttr ks p.1 p.2) k).2 = false := by
        rw [hset_other ks p.1 k p.2 hp]
        exact hks
      simpa using ih (setAttr ks p.1 p.2) hrest hstep
  intro ops hmem
  exact hfold ops none hmem (by simp [getAttr])

theorem attr_set_get_roundtrip_witness :
    getAttr (setAttr (β := Nat) none "a" (some 3)) "a" = (some 3, true)
    ∧ getAttr (setAttr (β := Nat) none "a" (some 3)) "b"
        = getAttr (β := Nat) none "b" :=
  ⟨(attr_set_get_roundtrip (β := Nat) none "a" "b" (some 3) (by decide)).1,
   (attr_set_get_roundtrip (β := Nat) none "a" "b" (some 3) (by decide)).2.1⟩

theorem hubExitSweep_sessions (payload : Bytes) (ss : List (SessionId × Session)) :
    (hubExitSweep payload ss).1
      = ss.map (fun p => (p.1, (p.2.CloseWithMsg payload).2.1)) := by
  induction ss with
  | nil => rfl
  | cons p rest ih =>
    obtain ⟨i, s⟩ := p
    simp [hubExitSweep, ih]

/-- Claim C3: processing an exit envelope sweeps every session in the live
set through `CloseWithMsg` with the shutdown payload (enqueueing a
Close envelope on each open session with queue room), empties the live
set (size 0), marks the hub Closed, and afterwards broadcast and
register fail with the closed-system error, unregister is a no-op, and
no further operation is processed by the halted loop, so the hub never
returns to the open state. -/
theorem hub_shutdown_closes_everything (h : Hub) (payload msg : Bytes)
    (ho : h.hopen = true) :
    pigeonCloseWithMsg h payload
      = .ok ({ sessions := [], hopen := false }, (hubExitSweep payload h.sessions).1)
    ∧ (hubExitSweep payload h.sessions).1
        = h.sessions.map (fun p => (p.1, (p.2.CloseWithMsg payload).2.1))
    ∧ (∀ p : SessionId × Session, p ∈ h.sessions → p.2.sopen = true →
        p.2.output.length < p.2.cap →
        (p.2.CloseWithMsg payload).2.1.output
          = p.2.output ++ [⟨.close, payload, none⟩])
    ∧ ({ sessions := [], hopen := false } : Hub).len = 0
    ∧ Hub.closed { sessions := [], hopen := false } = true
    ∧ pigeonBroadcast { sessions := [], hopen := false } msg
        = .error "pigeon instance is closed"
    ∧ (∀ (i : SessionId) (cap : Nat),
        handleRequestRegister { sessions := [], hopen := false } i cap
          = .error "pigeon instance is closed")
    ∧ (∀ i : SessionId, handleUnregister { sessions := [], hopen := false } i
        = { sessions := [], hopen := false })
    ∧ (∀ ops : List HubOp,
        (hubRun { sessions := [], hopen := false } ops).hopen = false) := by
  have hcl : h.closed = false := by simp [Hub.closed, ho]
  refine ⟨?_, hubExitSweep_sessions payload h.sessions, ?_, rfl, rfl, ?_, ?_, ?_, ?_⟩
  · simp [pigeonCloseWithMsg, hcl]
  · intro p _ hpo hplt
    have hpcl : p.2.closed = false := by simp [Session.closed, hpo]
    simp [Session.CloseWithMsg, Session.writeMessage, hpcl, hplt]
  · simp [pigeonBroadcast, Hub.closed]
  · intro i cap; simp [handleRequestRegister, Hub.closed]
  · intro i; simp [handleUnregister, Hub.closed]
  · intro ops; cases ops <;> simp [hubRun]

theorem hub_shutdown_closes_everything_witness :
    pigeonCloseWithMsg { sessions := [(1, newSession 2)], hopen := true } [9]
      = .ok ({ sessions := [], hopen := false },
             [(1, { sopen := true, output := [⟨.close, [9], none⟩], cap := 2,
                    connCloseCount := 0, outputCloseCount := 0 })]) := by
  have h := (hub_shutdown_closes_everything
    { sessions := [(1, newSession 2)], hopen := true } [9] [0] rfl).1
  rw [h]
  rfl

theorem hubBroadcast_sessions (m : Envelope) (ss : List (SessionId × Session)) :
    (hubBroadcast m ss).1
      = ss.map (fun p =>
          if passesFilter m p.1 then (p.1, (p.2.writeMessage m).1) else p) := by
  induction ss with
  | nil => rfl
  | cons p rest ih =>
    obtain ⟨i, s⟩ := p
    by_cases hp : passesFilter m i = true <;> simp [hubBroadcast, hp, ih]

theorem hubBroadcast_trace (m : Envelope) (ss : List (SessionId × Session)) :
    (hubBroadcast m ss).2
      = (ss.filter (fun p => passesFilter m p.1)).map
          (fun p => (p.1, (p.2.writeMessage m).2)) := by
  induction ss with
  | nil => rfl
  | cons p rest ih =>
    obtain ⟨i, s⟩ := p
    by_cases hp : passesFilter m i = true <;> simp [hubBroadcast, hp, ih]

theorem hubBroadcast_send_count (m : Envelope) (ss : List (SessionId × Session))
    (hnd : (ss.map Prod.fst).Nodup) (i : SessionId) :
    ((hubBroadcast m ss).2.map Prod.fst).count i
      = if i ∈ ss.map Prod.fst ∧ passesFilter m i = true then 1 else 0 := by
  have hmap : (hubBroadcast m ss).2.map Prod.fst
      = (ss.filter (fun p => passesFilter m p.1)).map Prod.fst := by
    rw [hubBroadcast_trace]
    simp [List.map_map, Function.comp]
  rw [hmap]
  clear hmap
  induction ss with
  | nil => simp
  | cons p rest ih =>
    obtain ⟨j, s⟩ := p
    simp only [List.map_cons, List.nodup_cons] at hnd
    obtain ⟨hj, hrest⟩ := hnd
    have hc := ih hrest
    have hc0 : i ∉ rest.map Prod.fst →
        List.count i
          ((rest.filter (fun p => passesFilter m p.1)).map Prod.fst) = 0 := by
      intro hni
      apply List.count_eq_zero.mpr
      intro hmem
      obtain ⟨q, hqmem, hqeq⟩ := List.mem_map.mp hmem
      exact hni (List.mem_map.mpr ⟨q, List.mem_of_mem_filter hqmem, hqeq⟩)
    by_cases hp : passesFilter m j = true
    · have hfc : List.filter (fun p => passesFilter m p.1) ((j, s) :: rest)
          = (j, s) :: List.filter (fun p => passesFilter m p.1) rest := by
        simp [List.filter_cons, hp]
      rw [hfc, List.map_cons]
      by_cases hij : i = j
      · subst hij
        simp [List.count_cons, hc0 hj, hp]
      · have hbeq : (i == j) = false := by simp [hij]
        rw [List.count_cons, hc]
        by_cases hm : i ∈ List.map Prod.fst rest <;>
          simp [hm, hij, hbeq, Ne.symm hij]
    · have hpf : passesFilter m j = false := by
        simpa using hp
      have hfc : List.filter (fun p => passesFilter m p.1) ((j, s) :: rest)
          = List.filter (fun p => passesFilter m p.1) rest := by
        simp [List.filter_cons, hpf]
      rw [hfc]
      by_cases hij : i = j
      · subst hij
        simp [hc0 hj, hpf]
      · rw [hc]
        by_cases hm : i ∈ List.map Prod.fst rest <;>
          simp [hm, hij, Ne.symm hij]

/-- Claim C1: for a broadcast envelope processed by the open hub's loop,
every session in the live set (identities distinct, as Go pointers are)
for which the filter is absent or true receives exactly one
`writeMessage` send; a session absent from the live set receives none;
a session whose filter says false receives none; and each session's
resulting state is its own `writeMessage` result, independent of any
other session's send outcome — a per-session failure never prevents
delivery to the rest. -/
theorem broadcast_delivers_exactly_once (m : Envelope)
    (ss : List (SessionId × Session)) (hnd : (ss.map Prod.fst).Nodup) :
    (∀ i ∈ ss.map Prod.fst, passesFilter m i = true →
      ((hubBroadcast m ss).2.map Prod.fst).count i = 1)
    ∧ (∀ i : SessionId, i ∉ ss.map Prod.fst →
      ((hubBroadcast m ss).2.map Prod.fst).count i = 0)
    ∧ (∀ i ∈ ss.map Prod.fst, passesFilter m i = false →
      ((hubBroadcast m ss).2.map Prod.fst).count i = 0)
    ∧ (hubBroadcast m ss).1
        = ss.map (fun p =>
            if passesFilter m p.1 then (p.1, (p.2.writeMessage m).1) else p) := by
  refine ⟨?_, ?_, ?_, hubBroadcast_sessions m ss⟩
  · intro i hmem hpass
    rw [hubBroadcast_send_count m ss hnd i]
    simp [hmem, hpass]
  · intro i hmem
    rw [hubBroadcast_send_count m ss hnd i]
    simp [hmem]
  · intro i _ hpass
    rw [hubBroadcast_send_count m ss hnd i]
    simp [hpass]

theorem broadcast_delivers_exactly_once_witness :
    ((hubBroadcast ⟨.text, [5], some (fun q => q == 1)⟩
        [(1, newSession 1), (2, newSession 1)]).2.map Prod.fst).count 1 = 1
    ∧ ((hubBroadcast ⟨.text, [5], some (fun q => q == 1)⟩
        [(1, newSession 1), (2, newSession 1)]).2.map Prod.fst).count 2 = 0 :=
  ⟨(broadcast_delivers_exactly_once ⟨.text, [5], some (fun q => q == 1)⟩
      [(1, newSession 1), (2, newSession 1)] (by decide)).1 1 (by decide) rfl,
   (broadcast_delivers_exactly_once ⟨.text, [5], some (fun q => q == 1)⟩
      [(1, newSession 1), (2, newSession 1)] (by decide)).2.2.1 2 (by decide) rfl⟩

end Pigeon
